import Mathlib

/-!
Shallow embedding of the ETH-AI-V1 mock backend (FastAPI, Python) and
verification of its specification.

The backend keeps a process-wide mutable settings dictionary
(src/backend/api/settings.py), fixed signal fixtures keyed by timeframe
(src/backend/api/signal.py), and a static trade log
(src/backend/api/trade_log.py).  The Python settings store is a plain
dict, so we embed it as an insertion-ordered association list of
string keys to dynamically typed values, mirroring Python dict
semantics (assignment to an existing key replaces the value in place,
assignment to a fresh key appends).  Handlers become pure functions on
that state.
-/

namespace ETHAI

/-- A dynamically typed Python value as stored in the mock settings dict:
a bool, a number (Python floats carry only exact decimal literals here,
so we use rationals), or a string. -/
inductive PyVal where
  | pyBool : Bool → PyVal
  | pyNum : ℚ → PyVal
  | pyStr : String → PyVal
deriving DecidableEq, Repr

/-- The Python dict holding the settings singleton: an insertion-ordered
association list from keys to values. -/
abbrev SettingsStore := List (String × PyVal)

/-- Python dict assignment `d[k] = v`: replace the value of an existing
key in place, otherwise append the new binding at the end. -/
def storeSet : SettingsStore → String → PyVal → SettingsStore
  | [], k, v => [(k, v)]
  | (k', v') :: rest, k, v =>
      if k' = k then (k', v) :: rest else (k', v') :: storeSet rest k v

/-- `mock_settings_data` from src/backend/api/settings.py: the initial
settings singleton created at startup. -/
def mock_settings_data : SettingsStore :=
  [ ("autoTrading", PyVal.pyBool false),
    ("stopLoss", PyVal.pyNum 2.5),
    ("takeProfit", PyVal.pyNum 5.0),
    ("telegramAlerts", PyVal.pyBool true),
    ("accountType", PyVal.pyStr "futures") ]

/-- The `Literal["futures", "spot"]` account type from
src/backend/api/models.py. -/
inductive AccountType where
  | futures : AccountType
  | spot : AccountType
deriving DecidableEq, Repr

/-- Serialization of an account type back to its Python string. -/
def accountTypeStr : AccountType → String
  | AccountType.futures => "futures"
  | AccountType.spot => "spot"

/-- `SettingsUpdate` from src/backend/api/models.py: every field is
`Optional[...] = None`.  Pydantic distinguishes a field that was never
given in the request from one explicitly given as `null`, and
`dict(exclude_unset=True)` drops only the former; we embed a field as
`Option (Option α)`: `none` = absent from the request, `some none` =
explicitly null, `some (some a)` = present with value `a`. -/
structure SettingsUpdate where
  autoTrading : Option (Option Bool)
  stopLoss : Option (Option ℚ)
  takeProfit : Option (Option ℚ)
  telegramAlerts : Option (Option Bool)
  accountType : Option (Option AccountType)
deriving DecidableEq, Repr

/-- One iteration of the update loop in `update_settings`
(src/backend/api/settings.py): a field absent from
`dict(exclude_unset=True)` contributes no iteration, a field whose
value `is None` is skipped by the loop body, and any other field is
assigned into the dict. -/
def applyField (st : SettingsStore) (name : String) : Option (Option PyVal) → SettingsStore
  | some (some v) => storeSet st name v
  | _ => st

/-- `update_settings` from src/backend/api/settings.py: iterate over
`settings.dict(exclude_unset=True).items()` (pydantic yields the set
fields in declaration order) and assign each non-None value into the
settings dict, then return the dict. -/
def update_settings (st : SettingsStore) (u : SettingsUpdate) : SettingsStore :=
  let st1 := applyField st "autoTrading" (u.autoTrading.map (Option.map PyVal.pyBool))
  let st2 := applyField st1 "stopLoss" (u.stopLoss.map (Option.map PyVal.pyNum))
  let st3 := applyField st2 "takeProfit" (u.takeProfit.map (Option.map PyVal.pyNum))
  let st4 := applyField st3 "telegramAlerts" (u.telegramAlerts.map (Option.map PyVal.pyBool))
  applyField st4 "accountType"
    (u.accountType.map (Option.map (fun a => PyVal.pyStr (accountTypeStr a))))

/-- `get_settings` from src/backend/api/settings.py: returns the current
settings singleton unchanged. -/
def get_settings (st : SettingsStore) : SettingsStore := st

/-- A `SettingsUpdate` with no field set: the empty PATCH body. -/
def emptyUpdate : SettingsUpdate := ⟨none, none, none, none, none⟩

/-- The well-formedness invariant of the settings singleton: exactly the
five declared fields, in declaration order, each of its declared type,
with `accountType` one of the two admissible strings. -/
def wellFormedSettings : SettingsStore → Bool
  | [ ("autoTrading", PyVal.pyBool _),
      ("stopLoss", PyVal.pyNum _),
      ("takeProfit", PyVal.pyNum _),
      ("telegramAlerts", PyVal.pyBool _),
      ("accountType", PyVal.pyStr a) ] => a == "futures" || a == "spot"
  | _ => false

theorem lookup_storeSet_self (st : SettingsStore) (k : String) (v : PyVal) :
    List.lookup k (storeSet st k v) = some v := by
  induction st with
  | nil => simp [storeSet, List.lookup]
  | cons p rest ih =>
      obtain ⟨k', v'⟩ := p
      by_cases h : k' = k
      · simp [storeSet, h, List.lookup]
      · have hb : (k == k') = false := by simp [Ne.symm h]
        simp [storeSet, h, List.lookup, hb, ih]

theorem lookup_storeSet_ne (st : SettingsStore) {k k' : String} (v : PyVal)
    (h : k' ≠ k) : List.lookup k' (storeSet st k v) = List.lookup k' st := by
  have hb : (k' == k) = false := by simp [h]
  induction st with
  | nil => simp [storeSet, List.lookup, hb]
  | cons p rest ih =>
      obtain ⟨k0, v0⟩ := p
      by_cases h0 : k0 = k
      · subst h0
        simp [storeSet, List.lookup, hb]
      · simp [storeSet, h0, List.lookup, ih]

theorem lookup_applyField_self (st : SettingsStore) (name : String)
    (v : Option (Option PyVal)) :
    List.lookup name (applyField st name v)
      = match v with
        | some (some pv) => some pv
        | _ => List.lookup name st := by
  rcases v with _ | (_ | pv) <;> simp [applyField, lookup_storeSet_self]

theorem lookup_applyField_ne (st : SettingsStore) {name k : String}
    (v : Option (Option PyVal)) (h : k ≠ name) :
    List.lookup k (applyField st name v) = List.lookup k st := by
  rcases v with _ | (_ | pv) <;> simp [applyField, lookup_storeSet_ne _ _ h]

/-- `SignalData` from src/backend/api/models.py. -/
structure SignalData where
  signal : String
  entryPoint : ℚ
  stopLoss : ℚ
  targetPrice : ℚ
  confidence : ℤ
  reasoning : String
  timestamp : String
deriving DecidableEq, Repr

/-- The `"default"` entry of `mock_signal_data`
(src/backend/api/signal.py). -/
def sigDefault : SignalData :=
  ⟨"SELL", 1589.9, 1610.5, 1550.0, 81,
   "Hourly chart showing bearish divergence on RSI. Price rejected at key resistance level with increasing sell volume.",
   "2023-07-21 14:00:00 (1h)"⟩

/-- The `"1m"` entry of `mock_signal_data`. -/
def sig1m : SignalData :=
  ⟨"SELL", 1589.9, 1595.0, 1580.0, 65,
   "Short-term momentum showing downward pressure with increasing sell volume.",
   "2023-07-21 14:45:12 (1m)"⟩

/-- The `"5m"` entry of `mock_signal_data`. -/
def sig5m : SignalData :=
  ⟨"SELL", 1589.9, 1600.0, 1570.0, 72,
   "Price breaking below 5-minute support with strong volume confirmation. MACD showing bearish crossover.",
   "2023-07-21 14:40:05 (5m)"⟩

/-- The `"15m"` entry of `mock_signal_data`. -/
def sig15m : SignalData :=
  ⟨"SELL", 1589.9, 1605.0, 1560.0, 78,
   "15-minute chart showing clear downtrend with lower highs. RSI indicating bearish momentum.",
   "2023-07-21 14:32:05 (15m)"⟩

/-- The `"1h"` entry of `mock_signal_data`. -/
def sig1h : SignalData :=
  ⟨"SELL", 1589.9, 1610.5, 1550.0, 81,
   "Hourly chart showing bearish divergence on RSI. Price rejected at key resistance level with increasing sell volume.",
   "2023-07-21 14:00:00 (1h)"⟩

/-- The `"4h"` entry of `mock_signal_data`. -/
def sig4h : SignalData :=
  ⟨"SELL", 1589.9, 1620.0, 1540.0, 85,
   "4-hour chart showing clear bearish pattern with decreasing buy volume. Multiple resistance rejections.",
   "2023-07-21 12:00:00 (4h)"⟩

/-- The `"1d"` entry of `mock_signal_data`. -/
def sig1d : SignalData :=
  ⟨"HOLD", 1589.9, 1550.0, 1650.0, 60,
   "Daily chart showing consolidation pattern. Waiting for clear breakout direction.",
   "2023-07-21 00:00:00 (1d)"⟩

/-- `mock_signal_data` from src/backend/api/signal.py: the dict of
signal fixtures keyed by timeframe, in source order. -/
def mock_signal_data : List (String × SignalData) :=
  [ ("default", sigDefault),
    ("1m", sig1m),
    ("5m", sig5m),
    ("15m", sig15m),
    ("1h", sig1h),
    ("4h", sig4h),
    ("1d", sig1d) ]

/-- `get_signal` from src/backend/api/signal.py, after query-parameter
resolution: if the timeframe is a key of `mock_signal_data` return its
fixture, otherwise return the `"default"` fixture. -/
def get_signal (timeframe : String) : SignalData :=
  match List.lookup timeframe mock_signal_data with
  | some s => s
  | none => sigDefault

/-- The full `GET /signal` handler including FastAPI query-parameter
handling: `timeframe: str = Query("15m")` substitutes `"15m"` when the
query parameter is absent. -/
def get_signal_endpoint (timeframe : Option String) : SignalData :=
  get_signal (timeframe.getD "15m")

/-- `TradeData` from src/backend/api/models.py. -/
structure TradeData where
  id : String
  date : String
  direction : String
  entry : ℚ
  exit : ℚ
  pnl : ℚ
  status : String
deriving DecidableEq, Repr

/-- `mock_trade_log_data` from src/backend/api/trade_log.py, in source
(insertion) order. -/
def mock_trade_log_data : List TradeData :=
  [ ⟨"1", "2023-06-01 14:30", "BUY", 0.5123, 0.5345, 4.33, "COMPLETED"⟩,
    ⟨"2", "2023-06-02 09:15", "SELL", 0.542, 0.521, 3.87, "COMPLETED"⟩,
    ⟨"3", "2023-06-03 11:45", "BUY", 0.518, 0.511, -1.35, "COMPLETED"⟩,
    ⟨"4", "2023-06-04 16:20", "BUY", 0.523, 0, 0, "OPEN"⟩,
    ⟨"5", "2023-06-05 10:05", "SELL", 0.531, 0.541, -1.88, "COMPLETED"⟩,
    ⟨"6", "2023-06-06 13:45", "BUY", 0.525, 0.538, 2.48, "COMPLETED"⟩,
    ⟨"7", "2023-06-07 15:30", "BUY", 0.54, 0.552, 2.22, "COMPLETED"⟩,
    ⟨"8", "2023-06-08 09:20", "SELL", 0.549, 0, 0, "OPEN"⟩ ]

/-- `get_trade_log` from src/backend/api/trade_log.py: returns the trade
collection unchanged. -/
def get_trade_log : List TradeData := mock_trade_log_data

/-- A scalar JSON value in a PATCH /settings request body. -/
inductive Json where
  | jNull : Json
  | jBool : Bool → Json
  | jNum : ℚ → Json
  | jStr : String → Json
deriving DecidableEq, Repr

/-- A PATCH /settings request body: a JSON object. -/
abbrev JsonBody := List (String × Json)

/-- Modelled from the spec: the FastAPI/pydantic request-body validation
of an `Optional[bool]` field of `SettingsUpdate`, which is performed by
the framework before `update_settings` runs and is not part of src/.
An absent field stays unset, an explicit null is recorded as set-to-null,
a boolean is accepted, and any other type is rejected with a structured
validation message naming the field. -/
def parseOptBool (name : String) (body : JsonBody) :
    Except String (Option (Option Bool)) :=
  match List.lookup name body with
  | none => Except.ok none
  | some Json.jNull => Except.ok (some none)
  | some (Json.jBool b) => Except.ok (some (some b))
  | some _ => Except.error (name ++ ": value is not a valid boolean")

/-- Modelled from the spec: the FastAPI/pydantic request-body validation
of an `Optional[float]` field of `SettingsUpdate` (framework code, not
in src/): absent stays unset, null is set-to-null, a number is accepted,
anything else is rejected with a structured validation message. -/
def parseOptFloat (name : String) (body : JsonBody) :
    Except String (Option (Option ℚ)) :=
  match List.lookup name body with
  | none => Except.ok none
  | some Json.jNull => Except.ok (some none)
  | some (Json.jNum q) => Except.ok (some (some q))
  | some _ => Except.error (name ++ ": value is not a valid float")

/-- Modelled from the spec: the FastAPI/pydantic request-body validation
of the `Optional[Literal["futures", "spot"]]` field of `SettingsUpdate`
(framework code, not in src/): absent stays unset, null is set-to-null,
the strings futures and spot are accepted, anything else is rejected
with a structured validation message. -/
def parseOptAccountType (name : String) (body : JsonBody) :
    Except String (Option (Option AccountType)) :=
  match List.lookup name body with
  | none => Except.ok none
  | some Json.jNull => Except.ok (some none)
  | some (Json.jStr "futures") => Except.ok (some (some AccountType.futures))
  | some (Json.jStr "spot") => Except.ok (some (some AccountType.spot))
  | some _ =>
      Except.error (name ++ ": unexpected value; permitted: futures, spot")

/-- Modelled from the spec: FastAPI/pydantic validation of a PATCH
/settings body against `SettingsUpdate` (src/backend/api/models.py),
field by field in declaration order; extra fields are ignored. -/
def parseSettingsUpdate (body : JsonBody) : Except String SettingsUpdate := do
  let a ← parseOptBool "autoTrading" body
  let sl ← parseOptFloat "stopLoss" body
  let tp ← parseOptFloat "takeProfit" body
  let ta ← parseOptBool "telegramAlerts" body
  let at_ ← parseOptAccountType "accountType" body
  return ⟨a, sl, tp, ta, at_⟩

/-- The PATCH /settings endpoint seen from outside: validation followed,
on success only, by `update_settings`.  Returns the response (client
error or resulting settings) together with the stored state after the
request. -/
def patch_settings_endpoint (st : SettingsStore) (body : JsonBody) :
    Except String SettingsStore × SettingsStore :=
  match parseSettingsUpdate body with
  | Except.ok u =>
      let st' := update_settings st u
      (Except.ok st', st')
  | Except.error e => (Except.error e, st)

theorem pair_mem_of_lookup {β : Type} {l : List (String × β)} {a : String} {b : β}
    (h : List.lookup a l = some b) : (a, b) ∈ l := by
  induction l with
  | nil => simp [List.lookup] at h
  | cons p rest ih =>
      obtain ⟨k, v⟩ := p
      by_cases hk : a = k
      · subst hk
        simp [List.lookup] at h
        simp [h]
      · have hb : (a == k) = false := by simp [hk]
        simp [List.lookup, hb] at h
        exact List.mem_cons_of_mem _ (ih h)

theorem lookup_update_autoTrading (st : SettingsStore) (u : SettingsUpdate) :
    List.lookup "autoTrading" (update_settings st u)
      = match u.autoTrading with
        | some (some b) => some (PyVal.pyBool b)
        | _ => List.lookup "autoTrading" st := by
  rcases hu : u.autoTrading with _ | (_ | b) <;>
    simp [update_settings, hu, lookup_applyField_self, lookup_applyField_ne]

theorem lookup_update_stopLoss (st : SettingsStore) (u : SettingsUpdate) :
    List.lookup "stopLoss" (update_settings st u)
      = match u.stopLoss with
        | some (some q) => some (PyVal.pyNum q)
        | _ => List.lookup "stopLoss" st := by
  rcases hu : u.stopLoss with _ | (_ | q) <;>
    simp [update_settings, hu, lookup_applyField_self, lookup_applyField_ne]

theorem lookup_update_takeProfit (st : SettingsStore) (u : SettingsUpdate) :
    List.lookup "takeProfit" (update_settings st u)
      = match u.takeProfit with
        | some (some q) => some (PyVal.pyNum q)
        | _ => List.lookup "takeProfit" st := by
  rcases hu : u.takeProfit with _ | (_ | q) <;>
    simp [update_settings, hu, lookup_applyField_self, lookup_applyField_ne]

theorem lookup_update_telegramAlerts (st : SettingsStore) (u : SettingsUpdate) :
    List.lookup "telegramAlerts" (update_settings st u)
      = match u.telegramAlerts with
        | some (some b) => some (PyVal.pyBool b)
        | _ => List.lookup "telegramAlerts" st := by
  rcases hu : u.telegramAlerts with _ | (_ | b) <;>
    simp [update_settings, hu, lookup_applyField_self, lookup_applyField_ne]

theorem lookup_update_accountType (st : SettingsStore) (u : SettingsUpdate) :
    List.lookup "accountType" (update_settings st u)
      = match u.accountType with
        | some (some a) => some (PyVal.pyStr (accountTypeStr a))
        | _ => List.lookup "accountType" st := by
  rcases hu : u.accountType with _ | (_ | a) <;>
    simp [update_settings, hu, lookup_applyField_self, lookup_applyField_ne]

theorem lookup_update_other (st : SettingsStore) (u : SettingsUpdate) {k : String}
    (h1 : k ≠ "autoTrading") (h2 : k ≠ "stopLoss") (h3 : k ≠ "takeProfit")
    (h4 : k ≠ "telegramAlerts") (h5 : k ≠ "accountType") :
    List.lookup k (update_settings st u) = List.lookup k st := by
  simp only [update_settings]
  rw [lookup_applyField_ne _ _ h5, lookup_applyField_ne _ _ h4,
    lookup_applyField_ne _ _ h3, lookup_applyField_ne _ _ h2,
    lookup_applyField_ne _ _ h1]

/-- Claim C1: a partial settings update overwrites exactly the stored
fields explicitly present in the request with non-null values; every
field given as null or not given at all, and every key other than the
five settings fields, keeps its prior stored value. -/
theorem c1_partial_update_exact (st : SettingsStore) (u : SettingsUpdate) :
    (List.lookup "autoTrading" (update_settings st u)
      = match u.autoTrading with
        | some (some b) => some (PyVal.pyBool b)
        | _ => List.lookup "autoTrading" st) ∧
    (List.lookup "stopLoss" (update_settings st u)
      = match u.stopLoss with
        | some (some q) => some (PyVal.pyNum q)
        | _ => List.lookup "stopLoss" st) ∧
    (List.lookup "takeProfit" (update_settings st u)
      = match u.takeProfit with
        | some (some q) => some (PyVal.pyNum q)
        | _ => List.lookup "takeProfit" st) ∧
    (List.lookup "telegramAlerts" (update_settings st u)
      = match u.telegramAlerts with
        | some (some b) => some (PyVal.pyBool b)
        | _ => List.lookup "telegramAlerts" st) ∧
    (List.lookup "accountType" (update_settings st u)
      = match u.accountType with
        | some (some a) => some (PyVal.pyStr (accountTypeStr a))
        | _ => List.lookup "accountType" st) ∧
    (∀ k : String, k ≠ "autoTrading" → k ≠ "stopLoss" → k ≠ "takeProfit" →
      k ≠ "telegramAlerts" → k ≠ "accountType" →
      List.lookup k (update_settings st u) = List.lookup k st) :=
  ⟨lookup_update_autoTrading st u, lookup_update_stopLoss st u,
   lookup_update_takeProfit st u, lookup_update_telegramAlerts st u,
   lookup_update_accountType st u,
   fun _ h1 h2 h3 h4 h5 => lookup_update_other st u h1 h2 h3 h4 h5⟩

theorem c1_partial_update_exact_witness :
    List.lookup "other"
        (update_settings mock_settings_data
          ⟨some (some true), some none, none, none, some (some AccountType.spot)⟩)
      = List.lookup "other" mock_settings_data :=
  (c1_partial_update_exact mock_settings_data
      ⟨some (some true), some none, none, none, some (some AccountType.spot)⟩).2.2.2.2.2
    "other" (by decide) (by decide) (by decide) (by decide) (by decide)

/-- Claim C2: for every timeframe that is a key of the fixture dict,
get_signal returns the fixture stored under that key; for every other
timeframe it returns the same content as get_signal applied to the
default key, and it is total, so no error is raised. -/
theorem c2_signal_fallback :
    (∀ tf s, List.lookup tf mock_signal_data = some s → get_signal tf = s) ∧
    (∀ tf, List.lookup tf mock_signal_data = none →
      get_signal tf = get_signal "default") := by
  constructor
  · intro tf s h
    simp [get_signal, h]
  · intro tf h
    simp only [get_signal, h]
    rfl

theorem c2_signal_fallback_witness :
    get_signal "1m" = sig1m ∧ get_signal "2h" = get_signal "default" :=
  ⟨c2_signal_fallback.1 "1m" sig1m (by rfl),
   c2_signal_fallback.2 "2h" (by rfl)⟩

/-- Claim C3: immediately after startup, before any update, the settings
store read by get_settings is exactly autoTrading false, stopLoss 2.5,
takeProfit 5.0, telegramAlerts true, accountType futures. -/
theorem c3_initial_settings :
    get_settings mock_settings_data =
      [ ("autoTrading", PyVal.pyBool false),
        ("stopLoss", PyVal.pyNum 2.5),
        ("takeProfit", PyVal.pyNum 5.0),
        ("telegramAlerts", PyVal.pyBool true),
        ("accountType", PyVal.pyStr "futures") ] := rfl

/-- Claim C4: the empty partial update is a no-op on every settings
state: get_settings before and after coincide. -/
theorem c4_empty_update_noop (st : SettingsStore) :
    get_settings (update_settings st emptyUpdate) = get_settings st := rfl

/-- Claim C5: updates to distinct fields are independent: from any
state, setting accountType to spot and then stopLoss to 1.0 leaves a
state with both accountType spot and stopLoss 1.0. -/
theorem c5_field_independence (st : SettingsStore) :
    List.lookup "accountType"
        (update_settings
          (update_settings st ⟨none, none, none, none, some (some AccountType.spot)⟩)
          ⟨none, some (some 1.0), none, none, none⟩)
      = some (PyVal.pyStr "spot") ∧
    List.lookup "stopLoss"
        (update_settings
          (update_settings st ⟨none, none, none, none, some (some AccountType.spot)⟩)
          ⟨none, some (some 1.0), none, none, none⟩)
      = some (PyVal.pyNum 1.0) := by
  constructor
  · simp [lookup_update_accountType, accountTypeStr]
  · simp [lookup_update_stopLoss]

/-- Claim C6: the trade-log read returns the stored collection in
insertion order, and no two trades in it share an id. -/
theorem c6_trade_log_order_unique_ids :
    get_trade_log = mock_trade_log_data ∧
    (get_trade_log.map TradeData.id).Nodup :=
  ⟨rfl, by decide⟩

/-- Claim C7: a PATCH /settings body that fails validation against the
partial-settings schema is answered with the validation error and the
stored settings state is unchanged by the rejected request. -/
theorem c7_invalid_patch_rejected (st : SettingsStore) (body : JsonBody)
    (e : String) (h : parseSettingsUpdate body = Except.error e) :
    (patch_settings_endpoint st body).1 = Except.error e ∧
    get_settings (patch_settings_endpoint st body).2 = get_settings st := by
  simp [patch_settings_endpoint, h, get_settings]

theorem c7_invalid_patch_rejected_witness :
    parseSettingsUpdate [("accountType", Json.jStr "margin")]
        = Except.error "accountType: unexpected value; permitted: futures, spot" ∧
    get_settings
        (patch_settings_endpoint mock_settings_data
          [("accountType", Json.jStr "margin")]).2
      = get_settings mock_settings_data :=
  ⟨by rfl,
   (c7_invalid_patch_rejected mock_settings_data
      [("accountType", Json.jStr "margin")]
      "accountType: unexpected value; permitted: futures, spot" (by rfl)).2⟩

/-- Claim C8: for every timeframe, recognized or not, the returned
signal has a confidence between 0 and 100 inclusive. -/
theorem c8_confidence_in_range (tf : String) :
    0 ≤ (get_signal tf).confidence ∧ (get_signal tf).confidence ≤ 100 := by
  have hall : ∀ p ∈ mock_signal_data, 0 ≤ p.2.confidence ∧ p.2.confidence ≤ 100 := by
    decide
  rcases h : List.lookup tf mock_signal_data with _ | s
  · have hd : get_signal tf = sigDefault := by simp [get_signal, h]
    rw [hd]
    exact ⟨by decide, by decide⟩
  · have hs : get_signal tf = s := by simp [get_signal, h]
    rw [hs]
    exact hall (tf, s) (pair_mem_of_lookup h)

theorem c8_confidence_in_range_witness :
    0 ≤ (get_signal "4h").confidence ∧ (get_signal "4h").confidence ≤ 100 :=
  c8_confidence_in_range "4h"

/-- Claim C9: when the timeframe query parameter is omitted, the handler
defaults it to 15m and returns the 15m fixture, which differs from the
fixture served for unrecognized keys. -/
theorem c9_omitted_timeframe_defaults_to_15m :
    get_signal_endpoint none = sig15m ∧ sig15m ≠ sigDefault := by
  constructor
  · rfl
  · intro h
    have h2 : sig15m.confidence = sigDefault.confidence :=
      congrArg SignalData.confidence h
    exact absurd h2 (by decide)

theorem wellFormed_update_preserved (st : SettingsStore) (u : SettingsUpdate)
    (h : wellFormedSettings st = true) :
    wellFormedSettings (update_settings st u) = true := by
  unfold wellFormedSettings at h
  split at h
  next b1 q1 q2 b2 a =>
    rcases u with ⟨f1, f2, f3, f4, f5⟩
    rcases f1 with _ | (_ | vb1) <;> rcases f2 with _ | (_ | vq2) <;>
      rcases f3 with _ | (_ | vq3) <;> rcases f4 with _ | (_ | vb4) <;>
      rcases f5 with _ | (_ | va5) <;> (try cases va5) <;>
      simp_all [update_settings, applyField, storeSet, wellFormedSettings,
        accountTypeStr]
  next => exact absurd h (by simp)

/-- Claim C10: starting from the initial settings and applying any
finite sequence of valid partial updates, the stored state always has
exactly the five declared fields, each of its declared type, with
accountType either futures or spot. -/
theorem c10_settings_shape_invariant (us : List SettingsUpdate) :
    wellFormedSettings (us.foldl update_settings mock_settings_data) = true := by
  have hgen : ∀ st : SettingsStore, wellFormedSettings st = true →
      wellFormedSettings (us.foldl update_settings st) = true := by
    induction us with
    | nil => exact fun st h => h
    | cons u rest ih =>
        exact fun st h => ih _ (wellFormed_update_preserved st u h)
  exact hgen mock_settings_data (by rfl)

end ETHAI
